import Mathlib

/-!
Shallow embedding of the WALT load balancer (`kernel/sched/walt/walt_lb.c`)
and proofs about its busiest-source selection, pull, active-migration,
rotation and tick-path logic.

Processing units (CPUs) are indexed by `Nat` into `State.cpus`; tasks are
indexed by `Nat` into `State.tasks`.  Fields mirror the `rq` /
`walt_rq` / `task_struct` / `walt_task_struct` fields that walt_lb.c reads
and writes.  Helpers that live outside this file in the kernel
(`is_reserved`, `capacity_orig_of`, `cpu_util`, ...) are modelled as reads
of those snapshot fields.
-/

namespace WaltLB

/-- MAX_RT_PRIO from the kernel headers: a task with `prio < MAX_RT_PRIO`
is real-time class. -/
def MAX_RT_PRIO : Nat := 100

/-- TASK_RUNNING task state. -/
def TASK_RUNNING : Nat := 0

/-- TASK_BOOST_STRICT_MAX boost level (walt.h). -/
def TASK_BOOST_STRICT_MAX : Nat := 3

/-- WALT_ROTATION_THRESHOLD_NS from walt_lb.c. -/
def WALT_ROTATION_THRESHOLD_NS : Nat := 16000000

/-- SMALL_TASK_THRESHOLD from walt_lb.c. -/
def SMALL_TASK_THRESHOLD : Nat := 102

/-- One task (`task_struct` plus its `walt_task_struct`): only the fields
walt_lb.c reads. `tstate` is `p->state`; `cpu` is `task_cpu(p)`; `on_rq`
is `task_on_rq_queued(p)`; `boost` is `per_task_boost(p)`; `misfit` is
`wts->misfit`; `util` is `task_util(p)`. -/
structure Task where
  prio : Nat := 0
  tstate : Nat := 0
  on_rq : Bool := false
  cpu : Nat := 0
  in_iowait : Bool := false
  boost : Nat := 0
  in_related_thread_group : Bool := false
  misfit : Bool := false
  last_enqueued_ts : Nat := 0
  cpus_allowed : List Nat := []
  nr_cpus_allowed : Nat := 0
  util : Nat := 0
  deriving DecidableEq

/-- One processing unit (`rq` plus its `walt_rq`): only the fields
walt_lb.c reads and writes.  `curr` is the task id of `rq->curr`;
`cfs_tasks` is the cfs task list, head of the list first, enqueue appends
at the tail; `overutilized` is the snapshot value of
`cpu_overutilized(i)`; `woken` records that `wake_up_if_idle` was called
on this unit. -/
structure RQ where
  active : Bool := false
  capacity : Nat := 0
  cluster : Nat := 0
  nr_running : Nat := 0
  h_nr_running : Nat := 0
  util : Nat := 0
  curr : Nat := 0
  curr_is_idle : Bool := false
  misfit_task_load : Nat := 0
  active_balance : Bool := false
  push_cpu : Nat := 0
  push_task : Option Nat := none
  reserved : Bool := false
  nr_big_tasks : Nat := 0
  overutilized : Bool := false
  cfs_tasks : List Nat := []
  woken : Bool := false
  deriving DecidableEq

/-- Global snapshot state: the per-unit table, the task table, the global
`walt_rotation_enabled` flag and the capacity of the minimum-capacity
cluster (`is_min_capacity_cpu(i)` compares `capacity_orig_of(i)` against
it). -/
structure State where
  cpus : List RQ := []
  tasks : List Task := []
  walt_rotation_enabled : Bool := false
  min_capacity : Nat := 0
  deriving DecidableEq

instance : Inhabited Task := ⟨{}⟩

instance : Inhabited RQ := ⟨{}⟩

/-- Model of `cpu_rq(i)`. -/
def cpu_rq (s : State) (i : Nat) : RQ := s.cpus.getD i {}

/-- Task-table lookup for a task id. -/
def taskOf (s : State) (tid : Nat) : Task := s.tasks.getD tid {}

/-- Model of `task_util(p)`. -/
def task_util (s : State) (tid : Nat) : Nat := (taskOf s tid).util

/-- Model of `capacity_orig_of(i)`. -/
def capacity_orig_of (s : State) (i : Nat) : Nat := (cpu_rq s i).capacity

/-- Model of `cpu_util(i)`. -/
def cpu_util (s : State) (i : Nat) : Nat := (cpu_rq s i).util

/-- Model of `cpu_active(i)`. -/
def cpu_active (s : State) (i : Nat) : Bool := (cpu_rq s i).active

/-- Model of `is_reserved(i)` (reservation table, spec 4.5). -/
def is_reserved (s : State) (i : Nat) : Bool := (cpu_rq s i).reserved

/-- Model of `is_min_capacity_cpu(i)`: the unit's original capacity equals the
minimum-capacity cluster's capacity. -/
def is_min_capacity_cpu (s : State) (i : Nat) : Bool :=
  capacity_orig_of s i == s.min_capacity

/-- Model of `same_cluster(i, j)`. -/
def same_cluster (s : State) (i j : Nat) : Bool :=
  (cpu_rq s i).cluster == (cpu_rq s j).cluster

/-- Number of possible cpus (`nr_cpu_ids`). -/
def num_cpus (s : State) : Nat := s.cpus.length

/-- Point update of one unit's record. -/
def update_rq (s : State) (i : Nat) (f : RQ → RQ) : State :=
  { s with cpus := s.cpus.set i (f (cpu_rq s i)) }

/-- Point update of one task's record. -/
def update_task (s : State) (tid : Nat) (f : Task → Task) : State :=
  { s with tasks := s.tasks.set tid (f (taskOf s tid)) }

/-- Model of `mark_reserved(cpu)`. -/
def mark_reserved (s : State) (i : Nat) : State :=
  update_rq s i (fun r => { r with reserved := true })

/-- Model of `clear_reserved(cpu)`. -/
def clear_reserved (s : State) (i : Nat) : State :=
  update_rq s i (fun r => { r with reserved := false })

/-- u64 subtraction `a - b` with wraparound, as used on
`sched_ktime_clock()` timestamps. -/
def u64sub (a b : Nat) : Nat :=
  (a % 2 ^ 64 + (2 ^ 64 - b % 2 ^ 64)) % 2 ^ 64

/-! ## Busiest-source selectors -/

/-- Accumulator of the scan loop in `walt_lb_find_busiest_similar_cap_cpu`:
`busiest_cpu` (-1 sentinel), `busiest_nr`, `busiest_util`. -/
structure SimAcc where
  busiest_cpu : Int := -1
  busiest_nr : Nat := 1
  busiest_util : Nat := 0
  deriving DecidableEq

/-- Loop body of `walt_lb_find_busiest_similar_cap_cpu` for one cpu `i`. -/
def similar_step (s : State) (acc : SimAcc) (i : Nat) : SimAcc :=
  if (cpu_rq s i).h_nr_running < 2 then acc
  else if cpu_util s i < acc.busiest_util then acc
  else ⟨Int.ofNat i, (cpu_rq s i).h_nr_running, cpu_util s i⟩

/-- Model of `walt_lb_find_busiest_similar_cap_cpu(dst_cpu, src_mask)`; the mask is
the list of candidate cpu ids in scan order. -/
def walt_lb_find_busiest_similar_cap_cpu (s : State) (src_mask : List Nat) : Int :=
  (src_mask.foldl (similar_step s) {}).busiest_cpu

/-- Accumulator of the scan loop in `walt_lb_find_busiest_higher_cap_cpu`. -/
structure HiAcc where
  busiest_cpu : Int := -1
  busiest_nr : Nat := 1
  busiest_util : Nat := 0
  total_capacity : Nat := 0
  total_util : Nat := 0
  total_nr : Nat := 0
  total_cpus : Nat := 0
  deriving DecidableEq

/-- Loop body of `walt_lb_find_busiest_higher_cap_cpu` for one cpu `i`. -/
def higher_step (s : State) (acc : HiAcc) (i : Nat) : HiAcc :=
  if (cpu_rq s i).active = false then acc
  else
    let acc := { acc with
      total_cpus := acc.total_cpus + 1
      total_util := acc.total_util + cpu_util s i
      total_capacity := acc.total_capacity + capacity_orig_of s i
      total_nr := acc.total_nr + (cpu_rq s i).h_nr_running }
    if (cpu_rq s i).h_nr_running < 2 then acc
    else if (cpu_rq s i).h_nr_running = 2 ∧
        task_util s (cpu_rq s i).curr < SMALL_TASK_THRESHOLD then acc
    else if s.walt_rotation_enabled = false ∧ (cpu_rq s i).overutilized = false then acc
    else if cpu_util s i < acc.busiest_util then acc
    else { acc with
      busiest_cpu := Int.ofNat i
      busiest_nr := (cpu_rq s i).h_nr_running
      busiest_util := cpu_util s i }

/-- Model of `walt_lb_find_busiest_higher_cap_cpu(dst_cpu, src_mask)`. -/
def walt_lb_find_busiest_higher_cap_cpu (s : State) (src_mask : List Nat) : Int :=
  if s.walt_rotation_enabled = false ∧
      ((src_mask.foldl (higher_step s) {}).total_nr ≤
          (src_mask.foldl (higher_step s) {}).total_cpus ∨
        (src_mask.foldl (higher_step s) {}).total_util * 1280 <
          (src_mask.foldl (higher_step s) {}).total_capacity * 1024) then -1
  else (src_mask.foldl (higher_step s) {}).busiest_cpu

/-- Accumulator of the scan loop in `walt_lb_find_busiest_lower_cap_cpu`. -/
structure LoAcc where
  busiest_cpu : Int := -1
  busiest_nr : Nat := 1
  busiest_util : Nat := 0
  total_capacity : Nat := 0
  total_util : Nat := 0
  total_nr : Nat := 0
  total_cpus : Nat := 0
  busy_nr_big_tasks : Nat := 0
  deriving DecidableEq

/-- Loop body of `walt_lb_find_busiest_lower_cap_cpu` for one cpu `i`. -/
def lower_step (s : State) (acc : LoAcc) (i : Nat) : LoAcc :=
  if (cpu_rq s i).active = false then acc
  else
    let acc := { acc with
      total_cpus := acc.total_cpus + 1
      total_util := acc.total_util + cpu_util s i
      total_capacity := acc.total_capacity + capacity_orig_of s i
      total_nr := acc.total_nr + (cpu_rq s i).h_nr_running }
    if (cpu_rq s i).active_balance = true then acc
    else if (cpu_rq s i).h_nr_running < 2 ∧ (cpu_rq s i).nr_big_tasks = 0 then acc
    else if s.walt_rotation_enabled = false ∧ (cpu_rq s i).overutilized = false then acc
    else if cpu_util s i < acc.busiest_util then acc
    else { acc with
      busiest_cpu := Int.ofNat i
      busiest_nr := (cpu_rq s i).h_nr_running
      busiest_util := cpu_util s i
      busy_nr_big_tasks := (cpu_rq s i).nr_big_tasks }

/-- Model of `walt_lb_find_busiest_lower_cap_cpu(dst_cpu, src_mask)`. -/
def walt_lb_find_busiest_lower_cap_cpu (s : State) (src_mask : List Nat) : Int :=
  if s.walt_rotation_enabled = false ∧
      (src_mask.foldl (lower_step s) {}).busy_nr_big_tasks = 0 ∧
      ((src_mask.foldl (lower_step s) {}).total_nr ≤
          (src_mask.foldl (lower_step s) {}).total_cpus ∨
        (src_mask.foldl (lower_step s) {}).total_util * 1280 <
          (src_mask.foldl (lower_step s) {}).total_capacity * 1024) then -1
  else (src_mask.foldl (lower_step s) {}).busiest_cpu

/-- Model of `walt_lb_find_busiest_cpu(dst_cpu, src_mask)`: dispatch on the relative
capacity of the destination against the first cpu of the mask. -/
def walt_lb_find_busiest_cpu (s : State) (dst_cpu : Nat) (src_mask : List Nat) : Int :=
  if capacity_orig_of s dst_cpu = capacity_orig_of s (src_mask.headD 0) then
    walt_lb_find_busiest_similar_cap_cpu s src_mask
  else if capacity_orig_of s dst_cpu < capacity_orig_of s (src_mask.headD 0) then
    walt_lb_find_busiest_lower_cap_cpu s src_mask
  else
    walt_lb_find_busiest_higher_cap_cpu s src_mask

/-! ## Rotation protocol (`walt_lb_check_for_rotation`, rotate work) -/

/-- Body of the first rotation loop (most-deserving scan) for one cpu `i`;
the accumulator is `(max_wait, deserved_cpu)`. -/
def deserved_step (s : State) (wc : Nat) (acc : Nat × Nat) (i : Nat) : Nat × Nat :=
  if is_reserved s i then acc
  else if (cpu_rq s i).misfit_task_load = 0 then acc
  else
    let wait := u64sub wc (taskOf s (cpu_rq s i).curr).last_enqueued_ts
    if wait > acc.1 then (wait, i) else acc

/-- First rotation loop: scans cpus in order and breaks at the first cpu
that is not minimum-capacity (hence the `takeWhile`); returns
`deserved_cpu`, initialised to `nr_cpu_ids`. -/
def rotation_deserved_cpu (s : State) (wc : Nat) : Nat :=
  (((List.range (num_cpus s)).takeWhile (fun i => is_min_capacity_cpu s i)).foldl
      (deserved_step s wc) (0, num_cpus s)).2

/-- Body of the second rotation loop (swap-destination scan) for one cpu
`i`; the accumulator is `(max_run, dst_cpu)`. -/
def rotation_dst_step (s : State) (wc : Nat) (acc : Nat × Nat) (i : Nat) : Nat × Nat :=
  if is_min_capacity_cpu s i then acc
  else if is_reserved s i then acc
  else if (taskOf s (cpu_rq s i).curr).prio < MAX_RT_PRIO then acc
  else if (cpu_rq s i).nr_running > 1 then acc
  else
    let run := u64sub wc (taskOf s (cpu_rq s i).curr).last_enqueued_ts
    if run < WALT_ROTATION_THRESHOLD_NS then acc
    else if run > acc.1 then (run, i) else acc

/-- Second rotation loop: returns `dst_cpu`, initialised to `nr_cpu_ids`. -/
def rotation_dst_cpu (s : State) (wc : Nat) : Nat :=
  ((List.range (num_cpus s)).foldl (rotation_dst_step s wc) (0, num_cpus s)).2

/-- Model of `struct walt_lb_rotate_work`: the swap work item. -/
structure RotateWork where
  src_task : Nat
  dst_task : Nat
  src_cpu : Nat
  dst_cpu : Nat
  deriving DecidableEq

/-- Model of `walt_lb_check_for_rotation(src_rq)` at wallclock `wc`
(`sched_ktime_clock()`): returns the updated state and the queued rotate
work item, if any (`queue_work_on` is modelled by returning `some`). -/
def walt_lb_check_for_rotation (s : State) (src_cpu : Nat) (wc : Nat) :
    State × Option RotateWork :=
  if is_min_capacity_cpu s src_cpu = false then (s, none)
  else if rotation_deserved_cpu s wc ≠ src_cpu then (s, none)
  else if rotation_dst_cpu s wc = num_cpus s then (s, none)
  else if MAX_RT_PRIO ≤ (taskOf s (cpu_rq s (rotation_dst_cpu s wc)).curr).prio ∧
      (cpu_rq s (rotation_dst_cpu s wc)).curr_is_idle = false ∧
      MAX_RT_PRIO ≤ (taskOf s (cpu_rq s src_cpu).curr).prio ∧
      (cpu_rq s src_cpu).curr_is_idle = false then
    (mark_reserved (mark_reserved s src_cpu) (rotation_dst_cpu s wc),
     some ⟨(cpu_rq s src_cpu).curr, (cpu_rq s (rotation_dst_cpu s wc)).curr,
           src_cpu, rotation_dst_cpu s wc⟩)
  else (s, none)

/-- Modelled from the spec: `migrate_swap` (kernel core, not in this
repository) is the "standard two-task exchange primitive" — the two
running tasks trade places: `t1` moves to unit `c1`, `t2` to unit `c2`,
and the two units' running tasks are exchanged accordingly. -/
def migrate_swap (s : State) (t1 t2 : Nat) (c1 c2 : Nat) : State :=
  let s := update_task s t1 (fun t => { t with cpu := c1 })
  let s := update_task s t2 (fun t => { t with cpu := c2 })
  let s := update_rq s c1 (fun r => { r with curr := t1 })
  update_rq s c2 (fun r => { r with curr := t2 })

/-- Model of `walt_lb_rotate_work_func`: execute the swap
(`migrate_swap(wr->src_task, wr->dst_task, wr->dst_cpu, wr->src_cpu)`)
then clear both reservations. -/
def walt_lb_rotate_work_func (s : State) (w : RotateWork) : State :=
  let s := migrate_swap s w.src_task w.dst_task w.dst_cpu w.src_cpu
  clear_reserved (clear_reserved s w.src_cpu) w.dst_cpu

/-! ## Migration primitive, pull operation, active migration, tick -/

/-- Model of `walt_detach_task(p, src_rq, dst_rq)`: `deactivate_task` (kernel core;
modelled from the spec: "remove the task from src's queue") removes the
task from the source cfs list and counters and clears its queued flag,
then `set_task_cpu` retargets it to the destination unit. -/
def walt_detach_task (s : State) (tid : Nat) (src dst : Nat) : State :=
  let s := update_rq s src (fun r => { r with
    cfs_tasks := r.cfs_tasks.erase tid
    h_nr_running := r.h_nr_running - 1
    nr_running := r.nr_running - 1 })
  update_task s tid (fun t => { t with on_rq := false, cpu := dst })

/-- Model of `walt_attach_task(p, rq)`: `activate_task` (kernel core; modelled from
the spec: "insert into dst's queue") enqueues the task at the tail of the
destination cfs list and sets its queued flag; `check_preempt_curr` has no
modelled state effect. -/
def walt_attach_task (s : State) (tid : Nat) (dst : Nat) : State :=
  let s := update_rq s dst (fun r => { r with
    cfs_tasks := r.cfs_tasks ++ [tid]
    h_nr_running := r.h_nr_running + 1
    nr_running := r.nr_running + 1 })
  update_task s tid (fun t => { t with on_rq := true })

/-- The sanity checks at the head of `walt_lb_active_migration`:
both units active, running on the busiest cpu, `active_balance` still set,
more than one task on the busiest unit. -/
def active_migration_sanity (s : State) (busiest_cpu this_cpu : Nat) : Bool :=
  cpu_active s busiest_cpu && cpu_active s (cpu_rq s busiest_cpu).push_cpu &&
  (busiest_cpu == this_cpu) && (cpu_rq s busiest_cpu).active_balance &&
  decide (1 < (cpu_rq s busiest_cpu).nr_running)

/-- The per-task revalidation in `walt_lb_active_migration`: the recorded
push task is still queued, still in TASK_RUNNING state, and still on the
busiest cpu. -/
def push_task_still_running (s : State) (busiest_cpu : Nat) : Bool :=
  match (cpu_rq s busiest_cpu).push_task with
  | some tid => (taskOf s tid).on_rq && ((taskOf s tid).tstate == TASK_RUNNING) &&
      ((taskOf s tid).cpu == busiest_cpu)
  | none => false

/-- Model of `walt_lb_active_migration(data)`: the stopper worker for an armed
active migration, running on `this_cpu` with `busiest_rq = data`.  On
every exit path it clears `active_balance`, the destination reservation
and `push_task`; it detaches/attaches the push task only if every
revalidation check passes. -/
def walt_lb_active_migration (s : State) (busiest_cpu this_cpu : Nat) : State :=
  let target_cpu := (cpu_rq s busiest_cpu).push_cpu
  let detach_ok := active_migration_sanity s busiest_cpu this_cpu &&
    push_task_still_running s busiest_cpu && cpu_active s target_cpu
  let moved : Option Nat := if detach_ok then (cpu_rq s busiest_cpu).push_task else none
  let s1 := match moved with
    | some tid => walt_detach_task s tid busiest_cpu target_cpu
    | none => s
  let s2 := update_rq s1 busiest_cpu
    (fun r => { r with active_balance := false, push_task := none })
  let s3 := clear_reserved s2 target_cpu
  match moved with
  | some tid => walt_attach_task s3 tid target_cpu
  | none => s3

/-- Model of `_walt_can_migrate_task(p, dst_cpu, to_lower)`. -/
def _walt_can_migrate_task (s : State) (tid : Nat) (dst_cpu : Nat) (to_lower : Bool) : Bool :=
  if to_lower &&
      ((taskOf s tid).in_iowait ||
        (((taskOf s tid).boost == TASK_BOOST_STRICT_MAX) &&
          (taskOf s tid).in_related_thread_group)) then false
  else (cpu_rq s (taskOf s tid).cpu).push_task ≠ some tid

/-- Model of `need_active_lb(p, dst_cpu, src_cpu)`. -/
def need_active_lb (s : State) (tid : Nat) (dst_cpu src_cpu : Nat) : Bool :=
  if (cpu_rq s src_cpu).active_balance then false
  else if capacity_orig_of s dst_cpu ≤ capacity_orig_of s src_cpu then false
  else if (taskOf s tid).misfit = false then false
  else true

/-- Outcome of the pull scan over the source cfs list. -/
inductive PullOutcome where
  | nothing : PullOutcome
  | pulled (tid : Nat) : PullOutcome
  | activeLB (tid : Nat) : PullOutcome
  deriving DecidableEq

/-- The `list_for_each_entry_reverse` scan of `walt_lb_pull_tasks`: the
argument list is the source cfs list already reversed, i.e. most recently
enqueued first. -/
def pull_scan (s : State) (dst_cpu src_cpu : Nat) (to_lower : Bool) :
    List Nat → PullOutcome
  | [] => .nothing
  | tid :: rest =>
    if dst_cpu ∉ (taskOf s tid).cpus_allowed then
      pull_scan s dst_cpu src_cpu to_lower rest
    else if _walt_can_migrate_task s tid dst_cpu to_lower = false then
      pull_scan s dst_cpu src_cpu to_lower rest
    else if (cpu_rq s src_cpu).curr = tid then
      if need_active_lb s tid dst_cpu src_cpu then .activeLB tid
      else pull_scan s dst_cpu src_cpu to_lower rest
    else .pulled tid

/-- Model of `walt_lb_pull_tasks(dst_cpu, src_cpu)`: returns the number of pulled
tasks (the C return value) and the updated state. -/
def walt_lb_pull_tasks (s : State) (dst_cpu src_cpu : Nat) : Nat × State :=
  match pull_scan s dst_cpu src_cpu
      (decide (capacity_orig_of s dst_cpu < capacity_orig_of s src_cpu))
      ((cpu_rq s src_cpu).cfs_tasks.reverse) with
  | .nothing => (0, s)
  | .pulled tid => (1, walt_attach_task (walt_detach_task s tid src_cpu dst_cpu) tid dst_cpu)
  | .activeLB tid =>
    let s := update_rq s src_cpu (fun r => { r with
      active_balance := true
      push_cpu := dst_cpu
      push_task := some tid })
    (0, mark_reserved s dst_cpu)

/-- Model of `wake_up_if_idle(cpu)`: kernel core call; modelled as recording the
wake request on the unit. -/
def wake_up_if_idle (s : State) (i : Nat) : State :=
  update_rq s i (fun r => { r with woken := true })

/-- Model of `walt_lb_tick(rq)`: `eec_cpu` is the value returned by the external
placement estimator `walt_find_energy_efficient_cpu` (outside this core
per the spec), `stop_ok` the return value of `stop_one_cpu_nowait`, and
`wc` the rotation wallclock. -/
def walt_lb_tick (s : State) (cpu : Nat) (eec_cpu : Int) (stop_ok : Bool) (wc : Nat) :
    State :=
  if (cpu_rq s cpu).misfit_task_load = 0 then s
  else if (taskOf s (cpu_rq s cpu).curr).tstate ≠ TASK_RUNNING ∨
      (taskOf s (cpu_rq s cpu).curr).nr_cpus_allowed = 1 then s
  else if s.walt_rotation_enabled then (walt_lb_check_for_rotation s cpu wc).1
  else if eec_cpu < 0 ∨ same_cluster s eec_cpu.toNat cpu then s
  else if (cpu_rq s cpu).active_balance then s
  else
    let new_cpu := eec_cpu.toNat
    let s := update_rq s cpu (fun r => { r with
      active_balance := true
      push_cpu := new_cpu
      push_task := some r.curr })
    let s := mark_reserved s new_cpu
    if stop_ok = false then clear_reserved s new_cpu
    else wake_up_if_idle s new_cpu

/-! ## Accessor lemmas for state updates -/

theorem cpu_rq_update_rq (s : State) (i : Nat) (f : RQ → RQ) (j : Nat) :
    cpu_rq (update_rq s i f) j =
      if j = i ∧ i < num_cpus s then f (cpu_rq s i) else cpu_rq s j := by
  unfold cpu_rq update_rq num_cpus
  by_cases hij : j = i
  · subst hij
    by_cases hl : j < s.cpus.length
    · simp only [List.getD_eq_getElem?_getD, List.getElem?_set_self, hl, if_pos,
        and_self, Option.getD_some]
      exact congrArg f (by simp [cpu_rq, taskOf, List.getD_eq_getElem?_getD, List.getElem?_eq_getElem hl])
    · rw [List.set_eq_of_length_le (Nat.le_of_not_lt hl)]
      simp [hl]
  · simp [List.getD_eq_getElem?_getD, List.getElem?_set_ne (fun h => hij h.symm), hij]

theorem taskOf_update_task (s : State) (tid : Nat) (f : Task → Task) (t2 : Nat) :
    taskOf (update_task s tid f) t2 =
      if t2 = tid ∧ tid < s.tasks.length then f (taskOf s tid) else taskOf s t2 := by
  unfold taskOf update_task
  by_cases hij : t2 = tid
  · subst hij
    by_cases hl : t2 < s.tasks.length
    · simp only [List.getD_eq_getElem?_getD, List.getElem?_set_self, hl, if_pos,
        and_self, Option.getD_some]
      exact congrArg f (by simp [cpu_rq, taskOf, List.getD_eq_getElem?_getD, List.getElem?_eq_getElem hl])
    · rw [List.set_eq_of_length_le (Nat.le_of_not_lt hl)]
      simp [hl]
  · simp [List.getD_eq_getElem?_getD, List.getElem?_set_ne (fun h => hij h.symm), hij]

theorem cpu_rq_update_task (s : State) (tid : Nat) (f : Task → Task) (j : Nat) :
    cpu_rq (update_task s tid f) j = cpu_rq s j := rfl

theorem taskOf_update_rq (s : State) (i : Nat) (f : RQ → RQ) (tid : Nat) :
    taskOf (update_rq s i f) tid = taskOf s tid := rfl

theorem tasks_update_rq (s : State) (i : Nat) (f : RQ → RQ) :
    (update_rq s i f).tasks = s.tasks := rfl

theorem num_cpus_update_rq (s : State) (i : Nat) (f : RQ → RQ) :
    num_cpus (update_rq s i f) = num_cpus s := by
  simp [num_cpus, update_rq]

theorem num_cpus_update_task (s : State) (tid : Nat) (f : Task → Task) :
    num_cpus (update_task s tid f) = num_cpus s := rfl

theorem tasks_length_update_task (s : State) (tid : Nat) (f : Task → Task) :
    (update_task s tid f).tasks.length = s.tasks.length := by
  simp [update_task]

/-! ## Claim theorems -/

/-- Concrete idle-ish unit used as a witness input: no misfit load. -/
def exTickIdle : State :=
  { cpus := [{ curr := 0, util := 3 }, { cluster := 1 }],
    tasks := [{ tstate := 0, nr_cpus_allowed := 2, cpus_allowed := [0, 1] }] }

/-- Claim C7: on a unit whose running task is not flagged misfit (the
tick gate `rq->misfit_task_load == 0`, the per-tick misfit signal for the
running task), or whose running task has no alternative affinity
(`p->nr_cpus_allowed == 1`), `walt_lb_tick` is a pure no-op: it returns
the state unchanged, and re-running it any number of times leaves the
unit's state identical. -/
theorem walt_lb_tick_noop (s : State) (cpu : Nat) (eec_cpu : Int) (stop_ok : Bool) (wc : Nat)
    (h : (cpu_rq s cpu).misfit_task_load = 0 ∨
      (taskOf s (cpu_rq s cpu).curr).nr_cpus_allowed = 1) :
    walt_lb_tick s cpu eec_cpu stop_ok wc = s ∧
    ∀ k, (fun t => walt_lb_tick t cpu eec_cpu stop_ok wc)^[k] s = s := by
  have h1 : walt_lb_tick s cpu eec_cpu stop_ok wc = s := by
    unfold walt_lb_tick
    rcases h with h | h
    · rw [if_pos h]
    · by_cases hm : (cpu_rq s cpu).misfit_task_load = 0
      · rw [if_pos hm]
      · rw [if_neg hm, if_pos (Or.inr h)]
  exact ⟨h1, fun k =>
    @Function.iterate_fixed State (fun t => walt_lb_tick t cpu eec_cpu stop_ok wc) s h1 k⟩

/-- Witness for C7 at a concrete non-misfit unit. -/
theorem walt_lb_tick_noop_witness :
    (cpu_rq exTickIdle 0).misfit_task_load = 0 ∧
    walt_lb_tick exTickIdle 0 1 true 0 = exTickIdle :=
  ⟨by decide, (walt_lb_tick_noop exTickIdle 0 1 true 0 (Or.inl (by decide))).1⟩

/-- Claim C8: executing the rotation swap work item exchanges the two
recorded running tasks (the source task moves to the destination unit and
vice versa, and the two units' running tasks are exchanged) and then
clears the reservations of both the source and the destination unit. -/
theorem walt_lb_rotate_work_func_spec (s : State) (w : RotateWork)
    (hst : w.src_task < s.tasks.length) (hdt : w.dst_task < s.tasks.length)
    (ht : w.src_task ≠ w.dst_task)
    (hsc : w.src_cpu < num_cpus s) (hdc : w.dst_cpu < num_cpus s)
    (hc : w.src_cpu ≠ w.dst_cpu) :
    (taskOf (walt_lb_rotate_work_func s w) w.src_task).cpu = w.dst_cpu ∧
    (taskOf (walt_lb_rotate_work_func s w) w.dst_task).cpu = w.src_cpu ∧
    (cpu_rq (walt_lb_rotate_work_func s w) w.dst_cpu).curr = w.src_task ∧
    (cpu_rq (walt_lb_rotate_work_func s w) w.src_cpu).curr = w.dst_task ∧
    is_reserved (walt_lb_rotate_work_func s w) w.src_cpu = false ∧
    is_reserved (walt_lb_rotate_work_func s w) w.dst_cpu = false := by
  simp only [walt_lb_rotate_work_func, migrate_swap, clear_reserved, is_reserved,
    cpu_rq_update_rq, cpu_rq_update_task, taskOf_update_rq, taskOf_update_task,
    num_cpus_update_rq, num_cpus_update_task, tasks_update_rq, tasks_length_update_task]
  simp [hst, hdt, ht, Ne.symm ht, hsc, hdc, hc, Ne.symm hc]

/-- Concrete state for the C8 witness: two units, two tasks, both
reserved before the swap runs. -/
def exRotate : State :=
  { cpus := [{ capacity := 100, curr := 0, reserved := true },
             { capacity := 300, curr := 1, reserved := true }],
    tasks := [{ prio := 120, cpu := 0 }, { prio := 120, cpu := 1 }],
    min_capacity := 100 }

/-- Witness for C8 at a concrete armed swap. -/
theorem walt_lb_rotate_work_func_spec_witness :
    (0 : Nat) < exRotate.tasks.length ∧
    (taskOf (walt_lb_rotate_work_func exRotate ⟨0, 1, 0, 1⟩) 0).cpu = 1 ∧
    is_reserved (walt_lb_rotate_work_func exRotate ⟨0, 1, 0, 1⟩) 0 = false ∧
    is_reserved (walt_lb_rotate_work_func exRotate ⟨0, 1, 0, 1⟩) 1 = false := by
  have h := walt_lb_rotate_work_func_spec exRotate ⟨0, 1, 0, 1⟩
    (by decide) (by decide) (by decide) (by decide) (by decide) (by decide)
  exact ⟨by decide, h.1, h.2.2.2.2.1, h.2.2.2.2.2⟩

/-! ## Rotation destination selection: characterization -/

/-- Uninterrupted run time (`wc - wts->last_enqueued_ts`) of unit `i`'s
running task. -/
def rotation_run (s : State) (wc : Nat) (i : Nat) : Nat :=
  u64sub wc (taskOf s (cpu_rq s i).curr).last_enqueued_ts

/-- The guard conditions under which the second rotation loop considers
unit `i` as a swap destination: not minimum-capacity, not reserved,
running task NOT real-time class (`prio >= MAX_RT_PRIO`), at most one
task queued, run time at least the rotation threshold. -/
def rotation_dst_ok (s : State) (wc : Nat) (i : Nat) : Prop :=
  is_min_capacity_cpu s i = false ∧ is_reserved s i = false ∧
  MAX_RT_PRIO ≤ (taskOf s (cpu_rq s i).curr).prio ∧
  (cpu_rq s i).nr_running ≤ 1 ∧
  WALT_ROTATION_THRESHOLD_NS ≤ rotation_run s wc i

instance rotation_dst_ok_decidable (s : State) (wc i : Nat) :
    Decidable (rotation_dst_ok s wc i) := by
  unfold rotation_dst_ok
  infer_instance

theorem rotation_dst_step_eq (s : State) (wc : Nat) (acc : Nat × Nat) (i : Nat) :
    rotation_dst_step s wc acc i =
      if rotation_dst_ok s wc i ∧ acc.1 < rotation_run s wc i
      then (rotation_run s wc i, i) else acc := by
  unfold rotation_dst_step rotation_dst_ok rotation_run
  split_ifs <;> simp_all <;> omega

theorem rotation_dst_fold (s : State) (wc : Nat) :
    ∀ (l : List Nat) (acc : Nat × Nat),
      acc.1 ≤ (l.foldl (rotation_dst_step s wc) acc).1 ∧
      (∀ j ∈ l, rotation_dst_ok s wc j →
        rotation_run s wc j ≤ (l.foldl (rotation_dst_step s wc) acc).1) ∧
      (l.foldl (rotation_dst_step s wc) acc = acc ∨
        (rotation_dst_ok s wc (l.foldl (rotation_dst_step s wc) acc).2 ∧
          (l.foldl (rotation_dst_step s wc) acc).2 ∈ l ∧
          (l.foldl (rotation_dst_step s wc) acc).1 =
            rotation_run s wc (l.foldl (rotation_dst_step s wc) acc).2))
  | [], acc => ⟨le_refl _, by simp, Or.inl rfl⟩
  | x :: l, acc => by
    rw [List.foldl_cons, rotation_dst_step_eq]
    by_cases hx : rotation_dst_ok s wc x ∧ acc.1 < rotation_run s wc x
    · rw [if_pos hx]
      obtain ⟨ih1, ih2, ih3⟩ := rotation_dst_fold s wc l (rotation_run s wc x, x)
      refine ⟨le_trans (le_of_lt hx.2) ih1, ?_, ?_⟩
      · intro j hj hq
        rcases List.mem_cons.mp hj with rfl | hj
        · exact ih1
        · exact ih2 j hj hq
      · rcases ih3 with heq | hok
        · right
          rw [heq]
          exact ⟨hx.1, List.mem_cons_self _ _, rfl⟩
        · right
          exact ⟨hok.1, List.mem_cons_of_mem _ hok.2.1, hok.2.2⟩
    · rw [if_neg hx]
      obtain ⟨ih1, ih2, ih3⟩ := rotation_dst_fold s wc l acc
      refine ⟨ih1, ?_, ?_⟩
      · intro j hj hq
        rcases List.mem_cons.mp hj with rfl | hj
        · have hle : ¬ acc.1 < rotation_run s wc j := fun hlt => hx ⟨hq, hlt⟩
          exact le_trans (Nat.le_of_not_lt hle) ih1
        · exact ih2 j hj hq
      · rcases ih3 with heq | hok
        · exact Or.inl heq
        · exact Or.inr ⟨hok.1, List.mem_cons_of_mem _ hok.2.1, hok.2.2⟩

/-- Characterization of `rotation_dst_cpu`: the sentinel (`nr_cpu_ids`)
is returned exactly when no unit passes the guards, and a selected unit
passes the guards with the longest run time among all passing units. -/
theorem rotation_dst_cpu_spec (s : State) (wc : Nat) :
    (rotation_dst_cpu s wc = num_cpus s ↔
      ∀ j < num_cpus s, ¬ rotation_dst_ok s wc j) ∧
    (rotation_dst_cpu s wc ≠ num_cpus s →
      rotation_dst_cpu s wc < num_cpus s ∧
      rotation_dst_ok s wc (rotation_dst_cpu s wc) ∧
      ∀ j < num_cpus s, rotation_dst_ok s wc j →
        rotation_run s wc j ≤ rotation_run s wc (rotation_dst_cpu s wc)) := by
  obtain ⟨h1, h2, h3⟩ :=
    rotation_dst_fold s wc (List.range (num_cpus s)) (0, num_cpus s)
  constructor
  · constructor
    · intro hn j hj hq
      rcases h3 with heq | hok
      · have := h2 j (List.mem_range.mpr hj) hq
        rw [heq] at this
        have hthr := hq.2.2.2.2
        unfold WALT_ROTATION_THRESHOLD_NS at hthr
        omega
      · unfold rotation_dst_cpu at hn
        rw [hn] at hok
        exact absurd (List.mem_range.mp hok.2.1) (lt_irrefl _)
    · intro hnone
      unfold rotation_dst_cpu
      rcases h3 with heq | hok
      · rw [heq]
      · exact absurd (hok.1) (hnone _ (List.mem_range.mp hok.2.1))
  · intro hne
    unfold rotation_dst_cpu at hne ⊢
    rcases h3 with heq | hok
    · rw [heq] at hne
      exact absurd rfl hne
    · refine ⟨List.mem_range.mp hok.2.1, hok.1, ?_⟩
      intro j hj hq
      have := h2 j (List.mem_range.mpr hj) hq
      rw [hok.2.2] at this
      exact this

/-- Claim C1 (amended): when the rotation check selects a swap
destination, that unit is non-minimum-capacity (hence of strictly higher
capacity than the minimum tier, when every unit's capacity is at least
the minimum), unreserved, its running task is NOT real-time-priority
(`prio >= MAX_RT_PRIO`), has been running at least (not strictly longer
than) the 16 ms threshold, and its queue length is at most 1 (not exactly
1); among all units satisfying these conditions it picks one with the
longest run time, and if no unit qualifies no swap is armed. -/
theorem walt_lb_rotation_dst_selection (s : State) (wc : Nat) (src : Nat) :
    (rotation_dst_cpu s wc = num_cpus s ↔
      ∀ j < num_cpus s, ¬ rotation_dst_ok s wc j) ∧
    (rotation_dst_cpu s wc ≠ num_cpus s →
      rotation_dst_cpu s wc < num_cpus s ∧
      rotation_dst_ok s wc (rotation_dst_cpu s wc) ∧
      ∀ j < num_cpus s, rotation_dst_ok s wc j →
        rotation_run s wc j ≤ rotation_run s wc (rotation_dst_cpu s wc)) ∧
    ((∀ i < num_cpus s, s.min_capacity ≤ capacity_orig_of s i) →
      rotation_dst_cpu s wc ≠ num_cpus s →
      s.min_capacity < capacity_orig_of s (rotation_dst_cpu s wc)) ∧
    (rotation_dst_cpu s wc = num_cpus s →
      (walt_lb_check_for_rotation s src wc).2 = none) := by
  obtain ⟨hs1, hs2⟩ := rotation_dst_cpu_spec s wc
  refine ⟨hs1, hs2, ?_, ?_⟩
  · intro hmin hne
    obtain ⟨hlt, hok, _⟩ := hs2 hne
    have hge := hmin _ hlt
    have hneq : capacity_orig_of s (rotation_dst_cpu s wc) ≠ s.min_capacity := by
      have := hok.1
      unfold is_min_capacity_cpu at this
      simpa using this
    omega
  · intro hn
    unfold walt_lb_check_for_rotation
    split_ifs <;> simp_all

/-- Concrete counterexample state for C1: unit 0 is the most-deserving
minimum-capacity unit; unit 1 is a higher-capacity, unreserved unit whose
running task IS real-time-priority (prio 50 < MAX_RT_PRIO), has run 30 ms
(> 16 ms threshold) and has queue length exactly 1 — everything the claim
requires of the swap destination. -/
def exRotRT : State :=
  { cpus := [{ capacity := 100, curr := 0, misfit_task_load := 7, nr_running := 1 },
             { capacity := 300, curr := 1, nr_running := 1 }],
    tasks := [{ prio := 120, last_enqueued_ts := 0 },
              { prio := 50, last_enqueued_ts := 20000000 }],
    min_capacity := 100 }

/-- Counterexample to C1 as stated: at `exRotRT` (wallclock 50 ms) unit 1
satisfies every destination condition of the claim (higher capacity,
unreserved, real-time running task, run time above threshold, queue
length 1), the check runs on the most-deserving minimum-capacity unit 0,
and yet the code selects no destination and arms no swap, because it
skips real-time running tasks (`rq->curr->prio < MAX_RT_PRIO` makes it
`continue`). -/
theorem walt_lb_rotation_rt_counterexample :
    is_min_capacity_cpu exRotRT 1 = false ∧
    is_reserved exRotRT 1 = false ∧
    (taskOf exRotRT (cpu_rq exRotRT 1).curr).prio < MAX_RT_PRIO ∧
    (cpu_rq exRotRT 1).nr_running = 1 ∧
    WALT_ROTATION_THRESHOLD_NS < rotation_run exRotRT 50000000 1 ∧
    is_min_capacity_cpu exRotRT 0 = true ∧
    rotation_deserved_cpu exRotRT 50000000 = 0 ∧
    rotation_dst_cpu exRotRT 50000000 = num_cpus exRotRT ∧
    (walt_lb_check_for_rotation exRotRT 0 50000000).2 = none := by
  decide

/-- Concrete state where rotation does select a destination: same as
`exRotRT` but unit 1's running task is fair-class (prio 120). -/
def exRotFair : State :=
  { cpus := [{ capacity := 100, curr := 0, misfit_task_load := 7, nr_running := 1 },
             { capacity := 300, curr := 1, nr_running := 1 }],
    tasks := [{ prio := 120, last_enqueued_ts := 0 },
              { prio := 120, last_enqueued_ts := 20000000 }],
    min_capacity := 100 }

/-- Witness for the amended C1 at a concrete input: a destination is
selected, it passes the (corrected) guards, and it has the longest run
time among qualifying units. -/
theorem walt_lb_rotation_dst_selection_witness :
    rotation_dst_cpu exRotFair 50000000 ≠ num_cpus exRotFair ∧
    rotation_dst_ok exRotFair 50000000 (rotation_dst_cpu exRotFair 50000000) ∧
    exRotFair.min_capacity <
      capacity_orig_of exRotFair (rotation_dst_cpu exRotFair 50000000) := by
  have h := walt_lb_rotation_dst_selection exRotFair 50000000 0
  refine ⟨by decide, (h.2.1 (by decide)).2.1, h.2.2.1 (by decide) (by decide)⟩

/-- Claim C6: whenever the rotation check arms a swap pairing, the source
is a minimum-capacity unit and the destination has strictly higher
capacity (given that every unit's capacity is at least the
minimum-cluster capacity); rotation never pairs two units of the same
tier. -/
theorem walt_lb_rotation_pairs_min_with_higher (s : State) (src wc : Nat)
    (w : RotateWork)
    (hmin : ∀ i < num_cpus s, s.min_capacity ≤ capacity_orig_of s i)
    (hw : (walt_lb_check_for_rotation s src wc).2 = some w) :
    is_min_capacity_cpu s w.src_cpu = true ∧
    capacity_orig_of s w.src_cpu < capacity_orig_of s w.dst_cpu := by
  unfold walt_lb_check_for_rotation at hw
  split_ifs at hw with h1 h2 h3 h4
  · have hsrc : is_min_capacity_cpu s src = true := by
      cases hmc : is_min_capacity_cpu s src
      · exact absurd hmc h1
      · rfl
    have hwf : (⟨(cpu_rq s src).curr, (cpu_rq s (rotation_dst_cpu s wc)).curr,
        src, rotation_dst_cpu s wc⟩ : RotateWork) = w := Option.some.inj hw
    subst hwf
    obtain ⟨_, hs2⟩ := rotation_dst_cpu_spec s wc
    obtain ⟨hlt, hok, _⟩ := hs2 h3
    have hge := hmin _ hlt
    have hneq : capacity_orig_of s (rotation_dst_cpu s wc) ≠ s.min_capacity := by
      have := hok.1
      unfold is_min_capacity_cpu at this
      simpa using this
    have hsrceq : capacity_orig_of s src = s.min_capacity := by
      unfold is_min_capacity_cpu at hsrc
      simpa using hsrc
    refine ⟨hsrc, ?_⟩
    show capacity_orig_of s src < capacity_orig_of s (rotation_dst_cpu s wc)
    omega

/-- Witness for C6: the concrete fair-class rotation state arms a swap,
pairing min-capacity unit 0 with capacity-300 unit 1. -/
theorem walt_lb_rotation_pairs_witness :
    (walt_lb_check_for_rotation exRotFair 0 50000000).2 = some ⟨0, 1, 0, 1⟩ ∧
    is_min_capacity_cpu exRotFair 0 = true ∧
    capacity_orig_of exRotFair 0 < capacity_orig_of exRotFair 1 := by
  have h := walt_lb_rotation_pairs_min_with_higher exRotFair 0 50000000 ⟨0, 1, 0, 1⟩
    (by decide) (by decide)
  exact ⟨by decide, h.1, h.2⟩

/-! ## Peer-tier busiest selector: characterization -/

/-- Candidate condition of the peer-tier scan: queue length at least 2. -/
def similar_ok (s : State) (i : Nat) : Prop := 2 ≤ (cpu_rq s i).h_nr_running

instance similar_ok_decidable (s : State) (i : Nat) : Decidable (similar_ok s i) := by
  unfold similar_ok
  infer_instance

theorem similar_step_eq (s : State) (acc : SimAcc) (i : Nat) :
    similar_step s acc i =
      if similar_ok s i ∧ acc.busiest_util ≤ cpu_util s i
      then ⟨Int.ofNat i, (cpu_rq s i).h_nr_running, cpu_util s i⟩ else acc := by
  unfold similar_step similar_ok
  split_ifs <;> simp_all <;> omega

theorem similar_fold (s : State) :
    ∀ (l : List Nat) (acc : SimAcc),
      acc.busiest_util ≤ (l.foldl (similar_step s) acc).busiest_util ∧
      (∀ j ∈ l, similar_ok s j →
        cpu_util s j ≤ (l.foldl (similar_step s) acc).busiest_util) ∧
      ((l.foldl (similar_step s) acc = acc ∧
          ∀ j ∈ l, similar_ok s j → cpu_util s j < acc.busiest_util) ∨
        (∃ i l1 l2, l = l1 ++ i :: l2 ∧ similar_ok s i ∧
          l.foldl (similar_step s) acc =
            ⟨Int.ofNat i, (cpu_rq s i).h_nr_running, cpu_util s i⟩ ∧
          acc.busiest_util ≤ cpu_util s i ∧
          ∀ j ∈ l2, similar_ok s j → cpu_util s j < cpu_util s i))
  | [], acc => ⟨le_refl _, by simp, Or.inl ⟨rfl, by simp⟩⟩
  | x :: l, acc => by
    rw [List.foldl_cons, similar_step_eq]
    by_cases hx : similar_ok s x ∧ acc.busiest_util ≤ cpu_util s x
    · rw [if_pos hx]
      obtain ⟨ih1, ih2, ih3⟩ :=
        similar_fold s l ⟨Int.ofNat x, (cpu_rq s x).h_nr_running, cpu_util s x⟩
      refine ⟨le_trans hx.2 ih1, ?_, ?_⟩
      · intro j hj hq
        rcases List.mem_cons.mp hj with rfl | hj
        · exact ih1
        · exact ih2 j hj hq
      · rcases ih3 with ⟨heq, hlt⟩ | ⟨i, l1, l2, hdec, hoki, heq, hacc, hlt⟩
        · refine Or.inr ⟨x, [], l, by simp, hx.1, heq, hx.2, ?_⟩
          intro j hj hq
          exact hlt j hj hq
        · exact Or.inr ⟨i, x :: l1, l2, by rw [hdec]; rfl, hoki, heq,
            le_trans hx.2 hacc, hlt⟩
    · rw [if_neg hx]
      obtain ⟨ih1, ih2, ih3⟩ := similar_fold s l acc
      refine ⟨ih1, ?_, ?_⟩
      · intro j hj hq
        rcases List.mem_cons.mp hj with rfl | hj
        · have : cpu_util s j < acc.busiest_util :=
            Nat.lt_of_not_le (fun hle => hx ⟨hq, hle⟩)
          exact le_trans (le_of_lt this) ih1
        · exact ih2 j hj hq
      · rcases ih3 with ⟨heq, hlt⟩ | ⟨i, l1, l2, hdec, hoki, heq, hacc, hlt⟩
        · refine Or.inl ⟨heq, ?_⟩
          intro j hj hq
          rcases List.mem_cons.mp hj with rfl | hj
          · exact Nat.lt_of_not_le (fun hle => hx ⟨hq, hle⟩)
          · exact hlt j hj hq
        · exact Or.inr ⟨i, x :: l1, l2, by rw [hdec]; rfl, hoki, heq, hacc, hlt⟩

/-- Claim C2 (amended): the peer-tier busiest selector returns, among
candidate units with queue length at least 2, a unit with the highest
utilization, breaking utilization ties in favor of the LAST-scanned such
unit (every candidate scanned after the returned one has strictly smaller
utilization); it returns the -1 sentinel exactly when no candidate has
queue length at least 2. -/
theorem walt_lb_similar_selection (s : State) (src_mask : List Nat) :
    (walt_lb_find_busiest_similar_cap_cpu s src_mask = -1 ↔
      ∀ j ∈ src_mask, (cpu_rq s j).h_nr_running < 2) ∧
    (∀ i : Nat, walt_lb_find_busiest_similar_cap_cpu s src_mask = Int.ofNat i →
      ∃ l1 l2, src_mask = l1 ++ i :: l2 ∧ 2 ≤ (cpu_rq s i).h_nr_running ∧
        (∀ j ∈ src_mask, 2 ≤ (cpu_rq s j).h_nr_running →
          cpu_util s j ≤ cpu_util s i) ∧
        (∀ j ∈ l2, 2 ≤ (cpu_rq s j).h_nr_running → cpu_util s j < cpu_util s i)) := by
  obtain ⟨h1, h2, h3⟩ := similar_fold s src_mask {}
  constructor
  · constructor
    · intro hneg j hj
      rcases h3 with ⟨heq, hlt⟩ | ⟨i, l1, l2, hdec, hoki, heq, hacc, hlt⟩
      · by_contra hge
        have := hlt j hj (Nat.le_of_not_lt hge)
        simp [SimAcc] at this
      · unfold walt_lb_find_busiest_similar_cap_cpu at hneg
        rw [heq] at hneg
        simp at hneg
    · intro hnone
      unfold walt_lb_find_busiest_similar_cap_cpu
      rcases h3 with ⟨heq, _⟩ | ⟨i, l1, l2, hdec, hoki, heq, hacc, hlt⟩
      · rw [heq]
      · have : i ∈ src_mask := by
          rw [hdec]
          exact List.mem_append_right _ (List.mem_cons_self _ _)
        have := hnone i this
        unfold similar_ok at hoki
        omega
  · intro i hi
    rcases h3 with ⟨heq, _⟩ | ⟨i0, l1, l2, hdec, hoki, heq, hacc, hlt⟩
    · unfold walt_lb_find_busiest_similar_cap_cpu at hi
      rw [heq] at hi
      simp [SimAcc] at hi
    · unfold walt_lb_find_busiest_similar_cap_cpu at hi
      rw [heq] at hi
      simp at hi
      subst hi
      have hbu : (src_mask.foldl (similar_step s) {}).busiest_util = cpu_util s i0 := by
        rw [heq]
      refine ⟨l1, l2, hdec, hoki, ?_, ?_⟩
      · intro j hj hq
        have := h2 j hj hq
        rw [hbu] at this
        exact this
      · intro j hj hq
        exact hlt j hj hq

/-- Concrete counterexample state for C2: two candidate units with equal
utilization. -/
def exSimTie : State :=
  { cpus := [{ h_nr_running := 2, util := 5 }, { h_nr_running := 2, util := 5 }] }

/-- Counterexample to C2 as stated: both units are candidates (queue
length 2) with equal utilization; the first-scanned unit is 0, yet the
selector returns unit 1 (the `util < busiest_util` skip keeps replacing
the incumbent on ties, so the last-scanned candidate wins). -/
theorem walt_lb_similar_tie_counterexample :
    2 ≤ (cpu_rq exSimTie 0).h_nr_running ∧ 2 ≤ (cpu_rq exSimTie 1).h_nr_running ∧
    cpu_util exSimTie 0 = cpu_util exSimTie 1 ∧
    walt_lb_find_busiest_similar_cap_cpu exSimTie [0, 1] = 1 := by
  decide

/-- Witness for the amended C2 at a concrete input: the selector picks
unit 1, the last-scanned of the two equal-utilization candidates. -/
theorem walt_lb_similar_selection_witness :
    walt_lb_find_busiest_similar_cap_cpu exSimTie [0, 1] = Int.ofNat 1 ∧
    ∃ l1 l2, ([0, 1] : List Nat) = l1 ++ 1 :: l2 ∧
      2 ≤ (cpu_rq exSimTie 1).h_nr_running ∧
      (∀ j ∈ ([0, 1] : List Nat), 2 ≤ (cpu_rq exSimTie j).h_nr_running →
        cpu_util exSimTie j ≤ cpu_util exSimTie 1) ∧
      (∀ j ∈ l2, 2 ≤ (cpu_rq exSimTie j).h_nr_running →
        cpu_util exSimTie j < cpu_util exSimTie 1) :=
  ⟨by decide, (walt_lb_similar_selection exSimTie [0, 1]).2 1 (by decide)⟩

/-! ## Pull-up selector: aggregate gate -/

/-- Aggregate utilization of the active units of a candidate mask. -/
def mask_total_util (s : State) : List Nat → Nat
  | [] => 0
  | i :: l => (if (cpu_rq s i).active = false then 0 else cpu_util s i) + mask_total_util s l

/-- Aggregate original capacity of the active units of a candidate mask. -/
def mask_total_capacity (s : State) : List Nat → Nat
  | [] => 0
  | i :: l =>
    (if (cpu_rq s i).active = false then 0 else capacity_orig_of s i) + mask_total_capacity s l

/-- Aggregate cfs queue length of the active units of a candidate mask. -/
def mask_total_nr (s : State) : List Nat → Nat
  | [] => 0
  | i :: l =>
    (if (cpu_rq s i).active = false then 0 else (cpu_rq s i).h_nr_running) + mask_total_nr s l

/-- Number of active units of a candidate mask. -/
def mask_total_cpus (s : State) : List Nat → Nat
  | [] => 0
  | i :: l => (if (cpu_rq s i).active = false then 0 else 1) + mask_total_cpus s l

theorem higher_step_totals (s : State) (acc : HiAcc) (i : Nat) :
    (higher_step s acc i).total_util =
      acc.total_util + (if (cpu_rq s i).active = false then 0 else cpu_util s i) ∧
    (higher_step s acc i).total_capacity =
      acc.total_capacity + (if (cpu_rq s i).active = false then 0 else capacity_orig_of s i) ∧
    (higher_step s acc i).total_nr =
      acc.total_nr + (if (cpu_rq s i).active = false then 0 else (cpu_rq s i).h_nr_running) ∧
    (higher_step s acc i).total_cpus =
      acc.total_cpus + (if (cpu_rq s i).active = false then 0 else 1) := by
  unfold higher_step
  by_cases hcu : cpu_util s i < acc.busiest_util <;> split_ifs <;> simp [hcu]

theorem higher_fold_totals (s : State) :
    ∀ (l : List Nat) (acc : HiAcc),
      (l.foldl (higher_step s) acc).total_util = acc.total_util + mask_total_util s l ∧
      (l.foldl (higher_step s) acc).total_capacity =
        acc.total_capacity + mask_total_capacity s l ∧
      (l.foldl (higher_step s) acc).total_nr = acc.total_nr + mask_total_nr s l ∧
      (l.foldl (higher_step s) acc).total_cpus = acc.total_cpus + mask_total_cpus s l
  | [], acc => by
    unfold mask_total_util mask_total_capacity mask_total_nr mask_total_cpus
    simp
  | x :: l, acc => by
    rw [List.foldl_cons]
    obtain ⟨s1, s2, s3, s4⟩ := higher_step_totals s acc x
    obtain ⟨i1, i2, i3, i4⟩ := higher_fold_totals s l (higher_step s acc x)
    unfold mask_total_util mask_total_capacity mask_total_nr mask_total_cpus
    refine ⟨?_, ?_, ?_, ?_⟩ <;> omega

/-- Claim C3 (amended): when global rotation mode is inactive, the
pull-up busiest selector abandons the pull (returns the -1 sentinel)
whenever the aggregate queue length of the active candidate units does
not exceed the number of active candidate units, OR the aggregate
utilization is below 1024/1280 = 4/5 of the aggregate capacity
(`total_util * 1280 < total_capacity * 1024`); the spec's "ratio 1.25"
is the reciprocal factor 1280/1024 applied to the utilization, not a
bound the utilization-to-capacity ratio must exceed. -/
theorem walt_lb_higher_aggregate_gate (s : State) (src_mask : List Nat)
    (hrot : s.walt_rotation_enabled = false)
    (hgate : mask_total_nr s src_mask ≤ mask_total_cpus s src_mask ∨
      mask_total_util s src_mask * 1280 < mask_total_capacity s src_mask * 1024) :
    walt_lb_find_busiest_higher_cap_cpu s src_mask = -1 := by
  unfold walt_lb_find_busiest_higher_cap_cpu
  obtain ⟨hu, hc, hn, hcp⟩ := higher_fold_totals s src_mask {}
  refine if_pos ⟨hrot, ?_⟩
  have hz : (({} : HiAcc)).total_util = 0 ∧ (({} : HiAcc)).total_capacity = 0 ∧
      (({} : HiAcc)).total_nr = 0 ∧ (({} : HiAcc)).total_cpus = 0 := ⟨rfl, rfl, rfl, rfl⟩
  rcases hgate with hgate | hgate
  · exact Or.inl (by omega)
  · exact Or.inr (by omega)

/-- Concrete counterexample state for C3: a single active candidate unit
with utilization equal to capacity (ratio 1.0, which does not exceed
1.25), queue length 3, overutilized. -/
def exHiModerate : State :=
  { cpus := [{ active := true, h_nr_running := 3, util := 500, capacity := 500,
               overutilized := true, curr := 0 }],
    tasks := [{ util := 200 }] }

/-- Counterexample to C3 as stated: rotation is inactive and the
aggregate utilization-to-capacity ratio is 1.0 ≤ 1.25, so the claim
demands the sentinel, but the selector returns unit 0: the code's gate
only fires when `total_util * 1280 < total_capacity * 1024`
(utilization below 4/5 of capacity) or `total_nr <= total_cpus`. -/
theorem walt_lb_higher_ratio_counterexample :
    exHiModerate.walt_rotation_enabled = false ∧
    4 * mask_total_util exHiModerate [0] ≤ 5 * mask_total_capacity exHiModerate [0] ∧
    walt_lb_find_busiest_higher_cap_cpu exHiModerate [0] = 0 := by
  decide

/-- Concrete state for the C3 witness: one active candidate whose
utilization (100) is below 4/5 of its capacity (500). -/
def exHiLight : State :=
  { cpus := [{ active := true, h_nr_running := 3, util := 100, capacity := 500,
               overutilized := true, curr := 0 }],
    tasks := [{ util := 200 }] }

/-- Witness for the amended C3 at a concrete input: the aggregate gate
fires and the selector abandons the pull. -/
theorem walt_lb_higher_aggregate_gate_witness :
    exHiLight.walt_rotation_enabled = false ∧
    mask_total_util exHiLight [0] * 1280 < mask_total_capacity exHiLight [0] * 1024 ∧
    walt_lb_find_busiest_higher_cap_cpu exHiLight [0] = -1 :=
  ⟨by decide, by decide,
    walt_lb_higher_aggregate_gate exHiLight [0] (by decide) (Or.inr (by decide))⟩

/-! ## Determinism / purity of the busiest-source selectors -/

/-- Two states agree on exactly the snapshot data the three busiest
selectors read: the global rotation flag and, per unit, activity,
capacity, utilization, cfs queue length, overutilization, the
active-balance flag, the big-task count, and the running task's
utilization.  Everything else (reservations, push tasks, misfit flags,
timestamps, queues, ...) may differ. -/
def SelectorAgree (s1 s2 : State) : Prop :=
  s1.walt_rotation_enabled = s2.walt_rotation_enabled ∧
  ∀ i, (cpu_rq s1 i).active = (cpu_rq s2 i).active ∧
    (cpu_rq s1 i).capacity = (cpu_rq s2 i).capacity ∧
    (cpu_rq s1 i).util = (cpu_rq s2 i).util ∧
    (cpu_rq s1 i).h_nr_running = (cpu_rq s2 i).h_nr_running ∧
    (cpu_rq s1 i).overutilized = (cpu_rq s2 i).overutilized ∧
    (cpu_rq s1 i).active_balance = (cpu_rq s2 i).active_balance ∧
    (cpu_rq s1 i).nr_big_tasks = (cpu_rq s2 i).nr_big_tasks ∧
    task_util s1 (cpu_rq s1 i).curr = task_util s2 (cpu_rq s2 i).curr

theorem similar_step_congr (s1 s2 : State) (h : SelectorAgree s1 s2)
    (acc : SimAcc) (i : Nat) : similar_step s1 acc i = similar_step s2 acc i := by
  have hn := (h.2 i).2.2.2.1
  have hu := (h.2 i).2.2.1
  unfold similar_step cpu_util
  rw [hn, hu]

theorem higher_step_congr (s1 s2 : State) (h : SelectorAgree s1 s2)
    (acc : HiAcc) (i : Nat) : higher_step s1 acc i = higher_step s2 acc i := by
  obtain ⟨ha, hcap, hu, hn, ho, _, _, htu⟩ := h.2 i
  unfold higher_step cpu_util capacity_orig_of
  rw [ha, hcap, hu, hn, ho, htu, h.1]

theorem lower_step_congr (s1 s2 : State) (h : SelectorAgree s1 s2)
    (acc : LoAcc) (i : Nat) : lower_step s1 acc i = lower_step s2 acc i := by
  obtain ⟨ha, hcap, hu, hn, ho, hab, hb, _⟩ := h.2 i
  unfold lower_step cpu_util capacity_orig_of
  rw [ha, hcap, hu, hn, ho, hab, hb, h.1]

/-- Claim C9: given a fixed snapshot of unit utilizations, queue lengths,
capacities, activity, and rotation mode, each of the three busiest-source
selector policies (peer-tier, pull-up, pull-down) and their dispatcher is
a deterministic pure function of that snapshot: two states agreeing on
the snapshot data (and possibly differing in all other mutable state)
produce the same chosen unit or the same -1 sentinel. -/
theorem walt_lb_selector_deterministic (s1 s2 : State) (dst_cpu : Nat)
    (src_mask : List Nat) (h : SelectorAgree s1 s2) :
    walt_lb_find_busiest_similar_cap_cpu s1 src_mask =
      walt_lb_find_busiest_similar_cap_cpu s2 src_mask ∧
    walt_lb_find_busiest_higher_cap_cpu s1 src_mask =
      walt_lb_find_busiest_higher_cap_cpu s2 src_mask ∧
    walt_lb_find_busiest_lower_cap_cpu s1 src_mask =
      walt_lb_find_busiest_lower_cap_cpu s2 src_mask ∧
    walt_lb_find_busiest_cpu s1 dst_cpu src_mask =
      walt_lb_find_busiest_cpu s2 dst_cpu src_mask := by
  have e1 : src_mask.foldl (similar_step s1) {} = src_mask.foldl (similar_step s2) {} :=
    List.foldl_ext _ _ _ (fun a b _ => similar_step_congr s1 s2 h a b)
  have e2 : src_mask.foldl (higher_step s1) {} = src_mask.foldl (higher_step s2) {} :=
    List.foldl_ext _ _ _ (fun a b _ => higher_step_congr s1 s2 h a b)
  have e3 : src_mask.foldl (lower_step s1) {} = src_mask.foldl (lower_step s2) {} :=
    List.foldl_ext _ _ _ (fun a b _ => lower_step_congr s1 s2 h a b)
  have c1 : walt_lb_find_busiest_similar_cap_cpu s1 src_mask =
      walt_lb_find_busiest_similar_cap_cpu s2 src_mask := by
    unfold walt_lb_find_busiest_similar_cap_cpu
    rw [e1]
  have c2 : walt_lb_find_busiest_higher_cap_cpu s1 src_mask =
      walt_lb_find_busiest_higher_cap_cpu s2 src_mask := by
    unfold walt_lb_find_busiest_higher_cap_cpu
    rw [e2, h.1]
  have c3 : walt_lb_find_busiest_lower_cap_cpu s1 src_mask =
      walt_lb_find_busiest_lower_cap_cpu s2 src_mask := by
    unfold walt_lb_find_busiest_lower_cap_cpu
    rw [e3, h.1]
  refine ⟨c1, c2, c3, ?_⟩
  unfold walt_lb_find_busiest_cpu
  have hcd : capacity_orig_of s1 dst_cpu = capacity_orig_of s2 dst_cpu :=
    (h.2 dst_cpu).2.1
  have hcf : capacity_orig_of s1 (src_mask.headD 0) =
      capacity_orig_of s2 (src_mask.headD 0) := (h.2 (src_mask.headD 0)).2.1
  rw [hcd, hcf]
  split_ifs
  · exact c1
  · exact c3
  · exact c2

/-- A snapshot state with extra non-snapshot state set (reservations,
misfit load, push task, queue contents, wake flag). -/
def exSnapA : State :=
  { cpus := [{ active := true, capacity := 100, util := 50, h_nr_running := 2,
               overutilized := true, reserved := true, misfit_task_load := 9,
               push_task := some 0, curr := 0, cfs_tasks := [0] },
             { active := true, capacity := 100, util := 40, h_nr_running := 3,
               curr := 0, woken := true, nr_running := 3 }],
    tasks := [{ util := 7, prio := 50, misfit := true, in_iowait := true }] }

/-- The same snapshot with all non-snapshot state cleared. -/
def exSnapB : State :=
  { cpus := [{ active := true, capacity := 100, util := 50, h_nr_running := 2,
               overutilized := true, curr := 0 },
             { active := true, capacity := 100, util := 40, h_nr_running := 3,
               curr := 0 }],
    tasks := [{ util := 7 }] }

/-- Witness for C9: the two concrete states agree on the snapshot and
every selector gives the same answer on both. -/
theorem walt_lb_selector_deterministic_witness :
    SelectorAgree exSnapA exSnapB ∧
    walt_lb_find_busiest_similar_cap_cpu exSnapA [0, 1] =
      walt_lb_find_busiest_similar_cap_cpu exSnapB [0, 1] ∧
    walt_lb_find_busiest_cpu exSnapA 2 [0, 1] =
      walt_lb_find_busiest_cpu exSnapB 2 [0, 1] := by
  have hag : SelectorAgree exSnapA exSnapB := by
    refine ⟨rfl, fun i => ?_⟩
    match i with
    | 0 => exact ⟨rfl, rfl, rfl, rfl, rfl, rfl, rfl, rfl⟩
    | 1 => exact ⟨rfl, rfl, rfl, rfl, rfl, rfl, rfl, rfl⟩
    | n + 2 => exact ⟨rfl, rfl, rfl, rfl, rfl, rfl, rfl, rfl⟩
  have h := walt_lb_selector_deterministic exSnapA exSnapB 2 [0, 1] hag
  exact ⟨hag, h.1, h.2.2.2⟩

/-! ## Flag-tracking lemmas for the migration paths -/

theorem cpu_rq_oob (s : State) (i : Nat) (h : num_cpus s ≤ i) : cpu_rq s i = {} := by
  unfold cpu_rq
  exact List.getD_eq_default _ _ h

theorem num_cpus_detach (s : State) (tid src dst : Nat) :
    num_cpus (walt_detach_task s tid src dst) = num_cpus s := by
  unfold walt_detach_task
  rw [num_cpus_update_task, num_cpus_update_rq]

theorem num_cpus_attach (s : State) (tid dst : Nat) :
    num_cpus (walt_attach_task s tid dst) = num_cpus s := by
  unfold walt_attach_task
  rw [num_cpus_update_task, num_cpus_update_rq]

/-- A point update whose function preserves a projection preserves that
projection of every unit. -/
theorem update_rq_preserves (s : State) (j : Nat) (f : RQ → RQ) {β : Type}
    (proj : RQ → β) (hf : ∀ r, proj (f r) = proj r) (i : Nat) :
    proj (cpu_rq (update_rq s j f) i) = proj (cpu_rq s i) := by
  rw [cpu_rq_update_rq]
  split_ifs with hcase
  · rw [hf, hcase.1]
  · rfl

theorem attach_preserves (s : State) (tid c : Nat) {β : Type}
    (proj : RQ → β)
    (hf : ∀ r : RQ, proj ({ r with cfs_tasks := r.cfs_tasks ++ [tid], h_nr_running := r.h_nr_running + 1, nr_running := r.nr_running + 1 }) = proj r)
    (i : Nat) :
    proj (cpu_rq (walt_attach_task s tid c) i) = proj (cpu_rq s i) := by
  unfold walt_attach_task
  rw [cpu_rq_update_task]
  exact update_rq_preserves s c _ proj hf i

theorem detach_preserves (s : State) (tid src dst : Nat) {β : Type}
    (proj : RQ → β)
    (hf : ∀ r : RQ, proj ({ r with cfs_tasks := r.cfs_tasks.erase tid, h_nr_running := r.h_nr_running - 1, nr_running := r.nr_running - 1 }) = proj r)
    (i : Nat) :
    proj (cpu_rq (walt_detach_task s tid src dst) i) = proj (cpu_rq s i) := by
  unfold walt_detach_task
  rw [cpu_rq_update_task]
  exact update_rq_preserves s src _ proj hf i

theorem is_reserved_clear (s : State) (c i : Nat) :
    is_reserved (clear_reserved s c) i = if i = c then false else is_reserved s i := by
  unfold is_reserved clear_reserved
  rw [cpu_rq_update_rq]
  by_cases hic : i = c
  · subst hic
    by_cases hn : i < num_cpus s
    · rw [if_pos ⟨rfl, hn⟩]
      simp
    · rw [if_neg (fun hcon => hn hcon.2), if_pos rfl,
        cpu_rq_oob s i (Nat.le_of_not_lt hn)]
  · rw [if_neg (fun hcon => hic hcon.1), if_neg hic]

theorem is_reserved_mark (s : State) (c i : Nat) :
    is_reserved (mark_reserved s c) i =
      if i = c ∧ c < num_cpus s then true else is_reserved s i := by
  unfold is_reserved mark_reserved
  rw [cpu_rq_update_rq]
  split_ifs with hcase
  · rfl
  · rfl

theorem clear_reserved_preserves (s : State) (c i : Nat) {β : Type}
    (proj : RQ → β) (hf : ∀ r : RQ, proj { r with reserved := false } = proj r) :
    proj (cpu_rq (clear_reserved s c) i) = proj (cpu_rq s i) :=
  update_rq_preserves s c _ proj hf i

theorem mark_reserved_preserves (s : State) (c i : Nat) {β : Type}
    (proj : RQ → β) (hf : ∀ r : RQ, proj { r with reserved := true } = proj r) :
    proj (cpu_rq (mark_reserved s c) i) = proj (cpu_rq s i) :=
  update_rq_preserves s c _ proj hf i

theorem tasks_clear_reserved (s : State) (c : Nat) :
    (clear_reserved s c).tasks = s.tasks := rfl

theorem tasks_mark_reserved (s : State) (c : Nat) :
    (mark_reserved s c).tasks = s.tasks := rfl

/-! ## Active-migration worker (claim C4) -/

/-- Claim C4: for every run of the active-migration worker, if a
revalidation check fails (the source unit inactive, the destination unit
inactive, or the flagged push task no longer queued/running/on the
source), the worker moves no task — the task table and every unit's cfs
queue are unchanged, so the flagged task remains where it was (on the
source) — and on every exit path, failure or success, the source's
`active_balance` flag and the destination's reservation are cleared. -/
theorem walt_lb_active_migration_spec (s : State) (b t : Nat) :
    ((cpu_rq (walt_lb_active_migration s b t) b).active_balance = false ∧
      is_reserved (walt_lb_active_migration s b t) ((cpu_rq s b).push_cpu) = false) ∧
    (cpu_active s b = false ∨ cpu_active s ((cpu_rq s b).push_cpu) = false ∨
        push_task_still_running s b = false →
      (walt_lb_active_migration s b t).tasks = s.tasks ∧
      ∀ i, (cpu_rq (walt_lb_active_migration s b t) i).cfs_tasks =
        (cpu_rq s i).cfs_tasks) := by
  constructor
  · by_cases hdo : (active_migration_sanity s b t && push_task_still_running s b &&
        cpu_active s ((cpu_rq s b).push_cpu)) = true
    · cases hp : (cpu_rq s b).push_task with
      | none =>
        exfalso
        have hptr : push_task_still_running s b = false := by
          unfold push_task_still_running
          rw [hp]
        rw [hptr] at hdo
        simp at hdo
      | some tid =>
        simp only [walt_lb_active_migration, hdo, if_true, hp]
        constructor
        · rw [attach_preserves _ _ _ RQ.active_balance (fun r => rfl),
            clear_reserved_preserves _ _ _ RQ.active_balance (fun r => rfl),
            cpu_rq_update_rq]
          split_ifs with hcase
          · rfl
          · have hoob : num_cpus (walt_detach_task s tid b ((cpu_rq s b).push_cpu)) ≤ b := by
              have := num_cpus_detach s tid b ((cpu_rq s b).push_cpu)
              rcases Nat.lt_or_ge b (num_cpus s) with hlt | hge
              · exact absurd ⟨rfl, by omega⟩ hcase
              · omega
            rw [cpu_rq_oob _ _ hoob]
        · unfold is_reserved
          rw [attach_preserves _ _ _ RQ.reserved (fun r => rfl)]
          have hclear := is_reserved_clear
            (update_rq (walt_detach_task s tid b ((cpu_rq s b).push_cpu)) b
              (fun r => { r with active_balance := false, push_task := none }))
            ((cpu_rq s b).push_cpu) ((cpu_rq s b).push_cpu)
          unfold is_reserved at hclear
          rw [hclear, if_pos rfl]
    · have hdo2 : (active_migration_sanity s b t && push_task_still_running s b &&
          cpu_active s ((cpu_rq s b).push_cpu)) = false := by
        cases h : (active_migration_sanity s b t && push_task_still_running s b &&
            cpu_active s ((cpu_rq s b).push_cpu))
        · rfl
        · exact absurd h hdo
      simp only [walt_lb_active_migration, hdo2, Bool.false_eq_true, if_false]
      constructor
      · rw [clear_reserved_preserves _ _ _ RQ.active_balance (fun r => rfl),
          cpu_rq_update_rq]
        split_ifs with hcase
        · rfl
        · have hnb : ¬ b < num_cpus s := fun hlt => hcase ⟨rfl, hlt⟩
          rw [cpu_rq_oob s b (Nat.le_of_not_lt hnb)]
      · unfold is_reserved
        have hclear := is_reserved_clear
          (update_rq s b (fun r => { r with active_balance := false, push_task := none }))
          ((cpu_rq s b).push_cpu) ((cpu_rq s b).push_cpu)
        unfold is_reserved at hclear
        rw [hclear, if_pos rfl]
  · intro hfail
    have hdo2 : (active_migration_sanity s b t && push_task_still_running s b &&
        cpu_active s ((cpu_rq s b).push_cpu)) = false := by
      rcases hfail with h | h | h
      · simp [active_migration_sanity, h]
      · simp [h]
      · simp [h]
    simp only [walt_lb_active_migration, hdo2, Bool.false_eq_true, if_false]
    refine ⟨rfl, ?_⟩
    intro i
    rw [clear_reserved_preserves _ _ _ RQ.cfs_tasks (fun r => rfl),
      update_rq_preserves s b (fun r => ({ r with active_balance := false, push_task := none })) RQ.cfs_tasks (fun r => rfl) i]

/-- Concrete state for the C4 witness: everything armed, but the
destination unit (1) has gone inactive before the worker validates. -/
def exActMigFail : State :=
  { cpus := [{ active := true, nr_running := 2, active_balance := true, push_cpu := 1,
               push_task := some 0, cfs_tasks := [0], curr := 0 },
             { active := false, reserved := true }],
    tasks := [{ on_rq := true, tstate := 0, cpu := 0 }] }

/-- Witness for C4 at a concrete failed revalidation: the worker aborts,
the task table is untouched (the flagged task stays on unit 0), and the
`active_balance` flag and the destination reservation are cleared. -/
theorem walt_lb_active_migration_spec_witness :
    cpu_active exActMigFail ((cpu_rq exActMigFail 0).push_cpu) = false ∧
    (cpu_rq (walt_lb_active_migration exActMigFail 0 0) 0).active_balance = false ∧
    is_reserved (walt_lb_active_migration exActMigFail 0 0)
      ((cpu_rq exActMigFail 0).push_cpu) = false ∧
    (walt_lb_active_migration exActMigFail 0 0).tasks = exActMigFail.tasks ∧
    (taskOf (walt_lb_active_migration exActMigFail 0 0) 0).cpu = 0 := by
  have h := walt_lb_active_migration_spec exActMigFail 0 0
  have hfail : cpu_active exActMigFail ((cpu_rq exActMigFail 0).push_cpu) = false := by
    decide
  exact ⟨hfail, h.1.1, h.1.2, (h.2 (Or.inr (Or.inl hfail))).1, by decide⟩

/-! ## Tick-path arming and the stopper return value (claim C10) -/

/-- Claim C10: on the tick-balancer arming path, if queuing the stopper
fails (`stop_one_cpu_nowait` returns 0), the destination's reservation is
cleared immediately while the source's `active_balance` flag, recorded
push cpu and push task remain set; if queuing succeeds, the destination
stays reserved and is woken if idle. -/
theorem walt_lb_tick_stopper_paths (s : State) (cpu : Nat) (eec_cpu : Int) (wc : Nat)
    (hm : (cpu_rq s cpu).misfit_task_load ≠ 0)
    (hts : (taskOf s (cpu_rq s cpu).curr).tstate = TASK_RUNNING)
    (hna : (taskOf s (cpu_rq s cpu).curr).nr_cpus_allowed ≠ 1)
    (hrot : s.walt_rotation_enabled = false)
    (hpos : 0 ≤ eec_cpu)
    (hsc : same_cluster s eec_cpu.toNat cpu = false)
    (hab : (cpu_rq s cpu).active_balance = false)
    (hcpu : cpu < num_cpus s)
    (hn : eec_cpu.toNat < num_cpus s) :
    (is_reserved (walt_lb_tick s cpu eec_cpu false wc) eec_cpu.toNat = false ∧
      (cpu_rq (walt_lb_tick s cpu eec_cpu false wc) cpu).active_balance = true ∧
      (cpu_rq (walt_lb_tick s cpu eec_cpu false wc) cpu).push_cpu = eec_cpu.toNat ∧
      (cpu_rq (walt_lb_tick s cpu eec_cpu false wc) cpu).push_task =
        some ((cpu_rq s cpu).curr)) ∧
    ((cpu_rq (walt_lb_tick s cpu eec_cpu true wc) eec_cpu.toNat).woken = true ∧
      is_reserved (walt_lb_tick s cpu eec_cpu true wc) eec_cpu.toNat = true ∧
      (cpu_rq (walt_lb_tick s cpu eec_cpu true wc) cpu).active_balance = true) := by
  have hc2 : ¬((taskOf s (cpu_rq s cpu).curr).tstate ≠ TASK_RUNNING ∨
      (taskOf s (cpu_rq s cpu).curr).nr_cpus_allowed = 1) :=
    fun h => h.elim (fun h1 => h1 hts) hna
  have hc3 : ¬(s.walt_rotation_enabled = true) := by simp [hrot]
  have hc4 : ¬(eec_cpu < 0 ∨ same_cluster s eec_cpu.toNat cpu = true) := by
    intro h
    rcases h with h | h
    · omega
    · rw [hsc] at h
      exact Bool.false_ne_true h
  have hc5 : ¬((cpu_rq s cpu).active_balance = true) := by simp [hab]
  have e0 : walt_lb_tick s cpu eec_cpu false wc =
      clear_reserved
        (mark_reserved
          (update_rq s cpu (fun r => ({ r with active_balance := true, push_cpu := eec_cpu.toNat, push_task := some r.curr })))
          eec_cpu.toNat) eec_cpu.toNat := by
    unfold walt_lb_tick
    rw [if_neg hm, if_neg hc2, if_neg hc3, if_neg hc4, if_neg hc5]
    rfl
  have e1 : walt_lb_tick s cpu eec_cpu true wc =
      wake_up_if_idle
        (mark_reserved
          (update_rq s cpu (fun r => ({ r with active_balance := true, push_cpu := eec_cpu.toNat, push_task := some r.curr })))
          eec_cpu.toNat) eec_cpu.toNat := by
    unfold walt_lb_tick
    rw [if_neg hm, if_neg hc2, if_neg hc3, if_neg hc4, if_neg hc5]
    rfl
  have hfields : cpu_rq (update_rq s cpu
      (fun r => ({ r with active_balance := true, push_cpu := eec_cpu.toNat, push_task := some r.curr }))) cpu =
      { cpu_rq s cpu with active_balance := true, push_cpu := eec_cpu.toNat, push_task := some ((cpu_rq s cpu).curr) } := by
    rw [cpu_rq_update_rq, if_pos ⟨rfl, hcpu⟩]
  constructor
  · rw [e0]
    refine ⟨?_, ?_, ?_, ?_⟩
    · rw [is_reserved_clear, if_pos rfl]
    · rw [clear_reserved_preserves _ _ _ RQ.active_balance (fun r => rfl),
        mark_reserved_preserves _ _ _ RQ.active_balance (fun r => rfl), hfields]
    · rw [clear_reserved_preserves _ _ _ RQ.push_cpu (fun r => rfl),
        mark_reserved_preserves _ _ _ RQ.push_cpu (fun r => rfl), hfields]
    · rw [clear_reserved_preserves _ _ _ RQ.push_task (fun r => rfl),
        mark_reserved_preserves _ _ _ RQ.push_task (fun r => rfl), hfields]
  · rw [e1]
    refine ⟨?_, ?_, ?_⟩
    · unfold wake_up_if_idle
      have hn2 : eec_cpu.toNat < num_cpus
          (mark_reserved
            (update_rq s cpu (fun r => ({ r with active_balance := true, push_cpu := eec_cpu.toNat, push_task := some r.curr })))
            eec_cpu.toNat) := by
        unfold mark_reserved
        rw [num_cpus_update_rq, num_cpus_update_rq]
        exact hn
      rw [cpu_rq_update_rq, if_pos ⟨rfl, hn2⟩]
    · unfold wake_up_if_idle
      have := update_rq_preserves
        (mark_reserved
          (update_rq s cpu (fun r => ({ r with active_balance := true, push_cpu := eec_cpu.toNat, push_task := some r.curr })))
          eec_cpu.toNat) eec_cpu.toNat (fun r => ({ r with woken := true }))
        RQ.reserved (fun r => rfl) eec_cpu.toNat
      unfold is_reserved
      rw [this]
      have hm2 := is_reserved_mark
        (update_rq s cpu (fun r => ({ r with active_balance := true, push_cpu := eec_cpu.toNat, push_task := some r.curr })))
        eec_cpu.toNat eec_cpu.toNat
      unfold is_reserved at hm2
      rw [hm2, if_pos ⟨rfl, by rw [num_cpus_update_rq]; exact hn⟩]
    · unfold wake_up_if_idle
      rw [update_rq_preserves _ eec_cpu.toNat (fun r => ({ r with woken := true }))
          RQ.active_balance (fun r => rfl) cpu,
        mark_reserved_preserves _ _ _ RQ.active_balance (fun r => rfl), hfields]

/-- Concrete state for the C10 witness: misfit load on unit 0, running
task with alternative affinity, destination unit 1 in another cluster. -/
def exTickArm : State :=
  { cpus := [{ misfit_task_load := 5, curr := 0, cluster := 0 },
             { cluster := 1 }],
    tasks := [{ tstate := 0, nr_cpus_allowed := 2, cpus_allowed := [0, 1] }] }

/-- Witness for C10 at a concrete armed tick: on stopper failure the
reservation is dropped but `active_balance`/push data stay; on success
the destination is reserved and woken. -/
theorem walt_lb_tick_stopper_paths_witness :
    (cpu_rq exTickArm 0).misfit_task_load ≠ 0 ∧
    is_reserved (walt_lb_tick exTickArm 0 1 false 0) 1 = false ∧
    (cpu_rq (walt_lb_tick exTickArm 0 1 false 0) 0).active_balance = true ∧
    (cpu_rq (walt_lb_tick exTickArm 0 1 true 0) 1).woken = true ∧
    is_reserved (walt_lb_tick exTickArm 0 1 true 0) 1 = true := by
  have h := walt_lb_tick_stopper_paths exTickArm 0 1 0 (by decide) (by decide)
    (by decide) (by decide) (by decide) (by decide) (by decide) (by decide) (by decide)
  exact ⟨by decide, h.1.1, h.1.2.1, h.2.1, h.2.2.1⟩

/-! ## Pull operation (claim C5) -/

/-- The per-task eligibility of the pull scan: allowed on the destination
by affinity, and `_walt_can_migrate_task` passes (not mid-active-migration;
when moving to a lower-capacity unit, not in iowait and not a
strictly-boosted grouped task). -/
def pull_eligible (s : State) (dst_cpu : Nat) (to_lower : Bool) (tid : Nat) : Prop :=
  dst_cpu ∈ (taskOf s tid).cpus_allowed ∧
  _walt_can_migrate_task s tid dst_cpu to_lower = true

theorem need_active_lb_eq_true (s : State) (tid dst src : Nat) :
    need_active_lb s tid dst src = true ↔
      (cpu_rq s src).active_balance = false ∧
      capacity_orig_of s src < capacity_orig_of s dst ∧
      (taskOf s tid).misfit = true := by
  unfold need_active_lb
  split_ifs with h1 h2 h3 <;> simp_all

theorem pull_scan_pulled (s : State) (dst src : Nat) (tl : Bool) :
    ∀ (l : List Nat) (tid : Nat), pull_scan s dst src tl l = .pulled tid →
      tid ∈ l ∧ pull_eligible s dst tl tid ∧ (cpu_rq s src).curr ≠ tid
  | [], tid => by
    intro h
    simp [pull_scan] at h
  | x :: l, tid => by
    intro h
    rw [pull_scan] at h
    by_cases h1 : dst ∉ (taskOf s x).cpus_allowed
    · rw [if_pos h1] at h
      obtain ⟨hm, he, hc⟩ := pull_scan_pulled s dst src tl l tid h
      exact ⟨List.mem_cons_of_mem _ hm, he, hc⟩
    · rw [if_neg h1] at h
      by_cases h2 : _walt_can_migrate_task s x dst tl = false
      · rw [if_pos h2] at h
        obtain ⟨hm, he, hc⟩ := pull_scan_pulled s dst src tl l tid h
        exact ⟨List.mem_cons_of_mem _ hm, he, hc⟩
      · rw [if_neg h2] at h
        by_cases h3 : (cpu_rq s src).curr = x
        · rw [if_pos h3] at h
          by_cases h4 : need_active_lb s x dst src = true
          · rw [if_pos h4] at h
            exact absurd h (by simp)
          · rw [if_neg h4] at h
            obtain ⟨hm, he, hc⟩ := pull_scan_pulled s dst src tl l tid h
            exact ⟨List.mem_cons_of_mem _ hm, he, hc⟩
        · rw [if_neg h3] at h
          have hx : x = tid := by simpa using h
          subst hx
          refine ⟨List.mem_cons_self _ _, ⟨not_not.mp h1, ?_⟩, h3⟩
          cases hcm : _walt_can_migrate_task s x dst tl
          · exact absurd hcm h2
          · rfl

theorem pull_scan_active (s : State) (dst src : Nat) (tl : Bool) :
    ∀ (l : List Nat) (tid : Nat), pull_scan s dst src tl l = .activeLB tid →
      tid ∈ l ∧ pull_eligible s dst tl tid ∧ (cpu_rq s src).curr = tid ∧
      need_active_lb s tid dst src = true
  | [], tid => by
    intro h
    simp [pull_scan] at h
  | x :: l, tid => by
    intro h
    rw [pull_scan] at h
    by_cases h1 : dst ∉ (taskOf s x).cpus_allowed
    · rw [if_pos h1] at h
      obtain ⟨hm, he, hc, hn⟩ := pull_scan_active s dst src tl l tid h
      exact ⟨List.mem_cons_of_mem _ hm, he, hc, hn⟩
    · rw [if_neg h1] at h
      by_cases h2 : _walt_can_migrate_task s x dst tl = false
      · rw [if_pos h2] at h
        obtain ⟨hm, he, hc, hn⟩ := pull_scan_active s dst src tl l tid h
        exact ⟨List.mem_cons_of_mem _ hm, he, hc, hn⟩
      · rw [if_neg h2] at h
        by_cases h3 : (cpu_rq s src).curr = x
        · rw [if_pos h3] at h
          by_cases h4 : need_active_lb s x dst src = true
          · rw [if_pos h4] at h
            have hx : x = tid := by simpa using h
            subst hx
            refine ⟨List.mem_cons_self _ _, ⟨not_not.mp h1, ?_⟩, h3, h4⟩
            cases hcm : _walt_can_migrate_task s x dst tl
            · exact absurd hcm h2
            · rfl
          · rw [if_neg h4] at h
            obtain ⟨hm, he, hc, hn⟩ := pull_scan_active s dst src tl l tid h
            exact ⟨List.mem_cons_of_mem _ hm, he, hc, hn⟩
        · rw [if_neg h3] at h
          exact absurd h (by simp)

/-- Claim C5: the pull operation scans the source cfs queue from the tail
(the scan list is the reversed cfs list, most recently enqueued first)
and reports 1 task pulled exactly when the scan finds a non-running
eligible task (allowed by affinity, not mid-active-migration, and — when
moving to a lower-capacity unit — not I/O-waiting and not a
strictly-pinned boosted task), in which case that task is
detached-and-attached to the destination; when the scan instead stops at
the running task, an active migration is armed (source `active_balance`
set, destination recorded as push target and reserved, push task
recorded) — which requires the destination to have strictly higher
capacity, the task to be flagged misfit and the source to not already be
balancing — and 0 tasks pulled are reported. -/
theorem walt_lb_pull_tasks_spec (s : State) (dst_cpu src_cpu : Nat)
    (hne : dst_cpu ≠ src_cpu) (hsrc : src_cpu < num_cpus s) :
    ((walt_lb_pull_tasks s dst_cpu src_cpu).1 = 1 ↔
      ∃ tid, pull_scan s dst_cpu src_cpu
        (decide (capacity_orig_of s dst_cpu < capacity_orig_of s src_cpu))
        ((cpu_rq s src_cpu).cfs_tasks.reverse) = .pulled tid) ∧
    (∀ tid, pull_scan s dst_cpu src_cpu
        (decide (capacity_orig_of s dst_cpu < capacity_orig_of s src_cpu))
        ((cpu_rq s src_cpu).cfs_tasks.reverse) = .pulled tid →
      tid ∈ (cpu_rq s src_cpu).cfs_tasks ∧
      pull_eligible s dst_cpu
        (decide (capacity_orig_of s dst_cpu < capacity_orig_of s src_cpu)) tid ∧
      (cpu_rq s src_cpu).curr ≠ tid ∧
      (walt_lb_pull_tasks s dst_cpu src_cpu).2 =
        walt_attach_task (walt_detach_task s tid src_cpu dst_cpu) tid dst_cpu) ∧
    (∀ tid, pull_scan s dst_cpu src_cpu
        (decide (capacity_orig_of s dst_cpu < capacity_orig_of s src_cpu))
        ((cpu_rq s src_cpu).cfs_tasks.reverse) = .activeLB tid →
      (walt_lb_pull_tasks s dst_cpu src_cpu).1 = 0 ∧
      (cpu_rq s src_cpu).curr = tid ∧
      pull_eligible s dst_cpu
        (decide (capacity_orig_of s dst_cpu < capacity_orig_of s src_cpu)) tid ∧
      (cpu_rq s src_cpu).active_balance = false ∧
      capacity_orig_of s src_cpu < capacity_orig_of s dst_cpu ∧
      (taskOf s tid).misfit = true ∧
      (cpu_rq (walt_lb_pull_tasks s dst_cpu src_cpu).2 src_cpu).active_balance = true ∧
      (cpu_rq (walt_lb_pull_tasks s dst_cpu src_cpu).2 src_cpu).push_cpu = dst_cpu ∧
      (cpu_rq (walt_lb_pull_tasks s dst_cpu src_cpu).2 src_cpu).push_task = some tid ∧
      (dst_cpu < num_cpus s →
        is_reserved (walt_lb_pull_tasks s dst_cpu src_cpu).2 dst_cpu = true)) := by
  refine ⟨?_, ?_, ?_⟩
  · constructor
    · intro h1
      cases hscan : pull_scan s dst_cpu src_cpu
          (decide (capacity_orig_of s dst_cpu < capacity_orig_of s src_cpu))
          ((cpu_rq s src_cpu).cfs_tasks.reverse) with
      | nothing =>
        exfalso
        unfold walt_lb_pull_tasks at h1
        rw [hscan] at h1
        simp at h1
      | pulled tid => exact ⟨tid, rfl⟩
      | activeLB tid =>
        exfalso
        unfold walt_lb_pull_tasks at h1
        rw [hscan] at h1
        simp at h1
    · intro ⟨tid, hscan⟩
      unfold walt_lb_pull_tasks
      rw [hscan]
  · intro tid hscan
    obtain ⟨hm, he, hc⟩ := pull_scan_pulled s dst_cpu src_cpu _ _ tid hscan
    refine ⟨?_, he, hc, ?_⟩
    · have := List.mem_reverse.mp hm
      exact this
    · unfold walt_lb_pull_tasks
      rw [hscan]
  · intro tid hscan
    obtain ⟨hm, he, hc, hn⟩ := pull_scan_active s dst_cpu src_cpu _ _ tid hscan
    obtain ⟨hab, hcap, hmis⟩ := (need_active_lb_eq_true s tid dst_cpu src_cpu).mp hn
    have hres : (walt_lb_pull_tasks s dst_cpu src_cpu).1 = 0 ∧
        (walt_lb_pull_tasks s dst_cpu src_cpu).2 =
          mark_reserved
            (update_rq s src_cpu (fun r => ({ r with active_balance := true, push_cpu := dst_cpu, push_task := some tid })))
            dst_cpu := by
      unfold walt_lb_pull_tasks
      rw [hscan]
      exact ⟨rfl, rfl⟩
    refine ⟨hres.1, hc, he, hab, hcap, hmis, ?_, ?_, ?_, ?_⟩
    · rw [hres.2,
        mark_reserved_preserves _ _ _ RQ.active_balance (fun r => rfl),
        cpu_rq_update_rq, if_pos ⟨rfl, hsrc⟩]
    · rw [hres.2,
        mark_reserved_preserves _ _ _ RQ.push_cpu (fun r => rfl),
        cpu_rq_update_rq, if_pos ⟨rfl, hsrc⟩]
    · rw [hres.2,
        mark_reserved_preserves _ _ _ RQ.push_task (fun r => rfl),
        cpu_rq_update_rq, if_pos ⟨rfl, hsrc⟩]
    · intro hdst
      rw [hres.2, is_reserved_mark, if_pos ⟨rfl, by rw [num_cpus_update_rq]; exact hdst⟩]

/-- Concrete state for the C5 witness: higher-capacity unit 0 pulls from
unit 1, whose queue holds the running task 0 and a waiting task 1. -/
def exPull : State :=
  { cpus := [{ active := true, capacity := 300 },
             { active := true, capacity := 100, curr := 0, cfs_tasks := [0, 1],
               h_nr_running := 2, nr_running := 2 }],
    tasks := [{ cpus_allowed := [0, 1], cpu := 1, misfit := true },
              { cpus_allowed := [0, 1], cpu := 1 }] }

/-- Witness for C5 at a concrete pull: the tail-first scan finds waiting
task 1, reports one task pulled, and the state is the detach-and-attach
of that task to the destination. -/
theorem walt_lb_pull_tasks_spec_witness :
    (walt_lb_pull_tasks exPull 0 1).1 = 1 ∧
    pull_eligible exPull 0
      (decide (capacity_orig_of exPull 0 < capacity_orig_of exPull 1)) 1 ∧
    (cpu_rq exPull 1).curr ≠ 1 ∧
    (walt_lb_pull_tasks exPull 0 1).2 =
      walt_attach_task (walt_detach_task exPull 1 1 0) 1 0 := by
  have h := walt_lb_pull_tasks_spec exPull 0 1 (by decide) (by decide)
  have hscan : pull_scan exPull 0 1
      (decide (capacity_orig_of exPull 0 < capacity_orig_of exPull 1))
      ((cpu_rq exPull 1).cfs_tasks.reverse) = .pulled 1 := by decide
  obtain ⟨he, hp, _⟩ := h
  obtain ⟨_, helig, hcur, hstate⟩ := hp 1 hscan
  exact ⟨he.mpr ⟨1, hscan⟩, helig, hcur, hstate⟩

end WaltLB
